import Mathlib

/-!
A verification development for the BoxLite box runtime.

The externally visible contract of the runtime is the C API declared in
`sdks/c/include/boxlite.h`, exercised by the behavioural tests under
`sdks/c/tests/`.  The core runtime itself (Coordinator, lifecycle state
machine, execution engine, simple facade) is not part of this tree, so the
definitions below are modelled from the specification of that core: the
Coordinator owns a table of box records, ids are allocated collision-free
with a fixed shape, lookup resolves exact id, then exact name, then unique
id-prefix, and the lifecycle is create -> Running -> Stopped -> Removed
with auto-start on create and purge-on-remove.

Stateful C calls are embedded as explicit state-passing functions
`Runtime -> args -> Runtime × Except CBoxliteError result`; external
effects (rootfs provisioning, the guest command's behaviour) are supplied
as explicit oracle arguments so that the contract can be stated for every
possible outcome of the external collaborators.
-/

namespace Boxlite

/-- Error codes of the C API, mirroring `BoxliteErrorCode` in `boxlite.h`
(values 0..16, stable contract). -/
inductive BoxliteErrorCode where
| Ok
| Internal
| NotFound
| AlreadyExists
| InvalidState
| InvalidArgument
| Config
| Storage
| Image
| Network
| Execution
| Stopped
| Engine
| Unsupported
| Database
| Portal
| Rpc
deriving Repr, DecidableEq

/-- Lifecycle states of a box.  `Created` is transient (auto-start advances
it immediately); `Removed` is terminal and the record is purged, so neither
is ever stored in the Coordinator's table. -/
inductive BoxState where
| Created
| Running
| Stopped
| Removed
deriving Repr, DecidableEq

/-- Network mode of a box, immutable after creation. -/
inductive NetworkMode where
| Isolated
| Bridged
deriving Repr, DecidableEq

/-- Extended error information, mirroring `CBoxliteError`: an error code
plus an optional human-readable message (`none` models a NULL `message`
pointer). -/
structure CBoxliteError where
code : BoxliteErrorCode
message : Option String
deriving Repr, DecidableEq

/-- Modelled from the spec: one `BoxRecord` of the Coordinator's
authoritative table (§3 DATA MODEL); the table itself lives in the absent
core.  The process handle is present only while Running. -/
structure BoxRecord where
id : String
name : Option String
state : BoxState
image : String
cpus : Nat
memoryMib : Nat
network : NetworkMode
createdAt : Nat
procHandle : Option Nat
autoRemove : Bool
deriving Repr, DecidableEq

/-- Modelled from the spec: the box configuration consumed by create
(§6 EXTERNAL INTERFACES); the JSON decoding of `options_json` is an
external collaborator, so options are embedded already structured. -/
structure BoxOptions where
image : String
name : Option String
workingDir : Option String
env : List String
volumes : List String
network : NetworkMode
ports : List String
cpus : Nat
memoryMib : Nat
autoRemove : Bool
deriving Repr, DecidableEq

/-- Modelled from the spec: the Runtime Coordinator state (§4.4), absent
from this tree.  It owns the table of non-Removed box records (insertion
order), the terminated flag set by shutdown, the id-allocation counter and
the executed-command counter used by metrics. -/
structure Runtime where
boxes : List BoxRecord
terminated : Bool
nextId : Nat
cmdCount : Nat
deriving Repr, DecidableEq

/-- Box info record exposed by `boxlite_box_info`/`boxlite_list_info`
(the JSON serialization is an external collaborator). -/
structure CBoxInfo where
id : String
name : Option String
state : BoxState
running : Bool
pid : Option Nat
image : String
cpus : Nat
memoryMib : Nat
deriving Repr, DecidableEq

/-- One chunk of command output, tagged with the stream discriminator
(the `is_stderr` argument of the streaming callback). -/
structure OutputChunk where
text : String
isStderr : Bool
deriving Repr, DecidableEq

/-- Behaviour of the guest command, supplied as an oracle to the execution
engine: either the command cannot be launched at all, or it runs, produces
the given output chunks, and exits with the given status. -/
inductive CmdBehavior where
| cantLaunch
| exits (exitCode : Int) (output : List OutputChunk)
deriving Repr, DecidableEq

/-- Buffered execution result of the simple API, mirroring
`CBoxliteExecResult` (`none` models a NULL text pointer). -/
structure CBoxliteExecResult where
exitCode : Int
stdoutText : Option String
stderrText : Option String
deriving Repr, DecidableEq

/-- Modelled from the spec: `allocate_id()` of the Identity component
(§4.1), absent from this tree.  Ids are monotone in the allocation counter
and have a fixed 26-character shape (decimal value padded with zeros),
giving collision-free, prefix-friendly identifiers. -/
def idOfNat (n : Nat) : String :=
String.mk (List.replicate (26 - (Nat.toDigits 10 n).length) '0' ++ Nat.toDigits 10 n)

/-- The NotFound error produced by lookups. -/
def notFoundErr (key : String) : CBoxliteError :=
⟨BoxliteErrorCode.NotFound, some ("box not found: " ++ key)⟩

/-- Modelled from the spec: `resolve(id_or_name_or_prefix)` of the
Identity component (§4.1), absent from this tree.  Resolution order:
(1) exact id match, (2) exact name match, (3) unique id-prefix match;
NotFound when nothing matches, InvalidArgument when a prefix is ambiguous. -/
def resolveE (l : List BoxRecord) (key : String) : Except CBoxliteError BoxRecord :=
match l.find? (fun b => b.id == key) with
| some r => Except.ok r
| none =>
  match l.find? (fun b => b.name == some key) with
  | some r => Except.ok r
  | none =>
    match l.filter (fun b => key.data.isPrefixOf b.id.data) with
    | [r] => Except.ok r
    | [] => Except.error (notFoundErr key)
    | _ => Except.error ⟨BoxliteErrorCode.InvalidArgument, some ("ambiguous id prefix: " ++ key)⟩

/-- Structured info view of a record (id, name, state with running flag
and pid, image, resources). -/
def infoOf (b : BoxRecord) : CBoxInfo :=
⟨b.id, b.name, b.state, b.state == BoxState.Running, b.procHandle, b.image, b.cpus, b.memoryMib⟩

/-- Modelled from the spec: `boxlite_runtime_new`.  The home directory and
registry list only configure external collaborators; `parseOk` is the
oracle for whether `registries_json` parses.  A fresh Coordinator has an
empty table and is not terminated. -/
def boxlite_runtime_new (_homeDir _registriesJson : Option String) (parseOk : Bool) :
    Except CBoxliteError Runtime :=
if parseOk then Except.ok ⟨[], false, 0, 0⟩
else Except.error ⟨BoxliteErrorCode.InvalidArgument, some "invalid registries JSON"⟩

/-- Modelled from the spec: `boxlite_create_box` (§4.2 create: ∅ → Running).
`prov` is the oracle for rootfs provisioning by the external image service;
on provisioning failure no record is inserted.  On success the new record
is inserted auto-started (state Running, process handle present); the
transient Created state is never stored.  After shutdown the Coordinator
is terminated and create fails with a Stopped error. -/
def boxlite_create_box (rt : Runtime) (opts : BoxOptions) (prov : Bool) :
    Runtime × Except CBoxliteError BoxRecord :=
if rt.terminated then
  (rt, Except.error ⟨BoxliteErrorCode.Stopped, some "runtime has been shut down"⟩)
else if prov then
  let r : BoxRecord :=
    ⟨idOfNat rt.nextId, opts.name, BoxState.Running, opts.image, opts.cpus, opts.memoryMib,
      opts.network, rt.nextId, some rt.nextId, opts.autoRemove⟩
  ({ rt with boxes := rt.boxes ++ [r], nextId := rt.nextId + 1 }, Except.ok r)
else
  (rt, Except.error ⟨BoxliteErrorCode.Image, some "failed to provision rootfs"⟩)

/-- Modelled from the spec: `boxlite_get`.  A handle is an id-based
reference into the Coordinator's table (§9), so get is read-only and
returns the resolved record. -/
def boxlite_get (rt : Runtime) (key : String) : Except CBoxliteError BoxRecord :=
resolveE rt.boxes key

/-- Modelled from the spec: `boxlite_get_info`: resolve, then project the
info view. -/
def boxlite_get_info (rt : Runtime) (key : String) : Except CBoxliteError CBoxInfo :=
(resolveE rt.boxes key).map infoOf

/-- Modelled from the spec: `boxlite_list_info` lists all non-Removed
boxes in insertion order (§4.4); Removed records were purged from the
table, so the table itself is the list. -/
def boxlite_list_info (rt : Runtime) : List CBoxInfo :=
rt.boxes.map infoOf

/-- Stopping transition on one record: Running → Stopped, process handle
cleared; any other state is left untouched. -/
def stopRecord (b : BoxRecord) : BoxRecord :=
if b.state = BoxState.Running then { b with state := BoxState.Stopped, procHandle := none } else b

/-- Modelled from the spec: the auto-remove side effect (§4.2): a record
whose `auto_remove` flag is set is deleted as soon as it is Stopped. -/
def sweepAutoRemove (l : List BoxRecord) : List BoxRecord :=
l.filter (fun b => !(b.autoRemove && b.state == BoxState.Stopped))

/-- Modelled from the spec: `boxlite_stop_box` (§4.2 stop: Running →
Stopped, idempotent).  The handle carries the exact box id.  Stopping an
already-Stopped box succeeds with no side effect; stopping a Running box
stops it and applies the auto-remove sweep.  The stop timeout only governs
the external isolation unit, so it does not appear in the state model. -/
def boxlite_stop_box (rt : Runtime) (id : String) : Runtime × Except CBoxliteError Unit :=
match rt.boxes.find? (fun b => b.id == id) with
| none => (rt, Except.error (notFoundErr id))
| some b =>
  if b.state = BoxState.Running then
    ({ rt with
        boxes := sweepAutoRemove (rt.boxes.map (fun x => if x.id == id then stopRecord x else x)) },
      Except.ok ())
  else (rt, Except.ok ())

/-- Modelled from the spec: `boxlite_start_box` (§4.2 start: Stopped →
Running; InvalidState on a Running box; Stopped error once the Coordinator
is terminated).  `prov` is the re-provisioning oracle. -/
def boxlite_start_box (rt : Runtime) (id : String) (prov : Bool) :
    Runtime × Except CBoxliteError Unit :=
if rt.terminated then
  (rt, Except.error ⟨BoxliteErrorCode.Stopped, some "runtime has been shut down"⟩)
else
  match rt.boxes.find? (fun b => b.id == id) with
  | none => (rt, Except.error (notFoundErr id))
  | some b =>
    match b.state with
    | BoxState.Stopped =>
      if prov then
        ({ rt with
            boxes := rt.boxes.map (fun x =>
              if x.id == id then
                { x with state := BoxState.Running, procHandle := some rt.nextId }
              else x),
            nextId := rt.nextId + 1 },
          Except.ok ())
      else (rt, Except.error ⟨BoxliteErrorCode.Image, some "failed to provision rootfs"⟩)
    | _ => (rt, Except.error ⟨BoxliteErrorCode.InvalidState, some "box is not stopped"⟩)

/-- Modelled from the spec: `boxlite_remove` (§4.2 remove: Stopped →
Removed, or Running → Removed under force).  Remove resolves
`id_or_name`, rejects removing a Running box without force, and is the
only transition that deletes the record. -/
def boxlite_remove (rt : Runtime) (key : String) (force : Bool) :
    Runtime × Except CBoxliteError Unit :=
match resolveE rt.boxes key with
| Except.error e => (rt, Except.error e)
| Except.ok b =>
  if b.state == BoxState.Running && !force then
    (rt, Except.error ⟨BoxliteErrorCode.InvalidState, some "box is running; use force"⟩)
  else
    ({ rt with boxes := rt.boxes.filter (fun x => !(x.id == b.id)) }, Except.ok ())

/-- Modelled from the spec: `boxlite_execute` (§4.3).  The handle carries
the exact box id; `beh` is the oracle for the guest command's behaviour;
`cb` records whether a streaming callback was supplied.  The returned pair
is the command's exit code together with the list of callback invocations
(chunk, stream discriminator) in delivery order; with no callback the
output is discarded.  A non-zero exit status is not an API-level error;
a command that cannot be launched is an Execution-kind error. -/
def boxlite_execute (rt : Runtime) (id : String) (beh : CmdBehavior) (cb : Bool) :
    Runtime × Except CBoxliteError (Int × List OutputChunk) :=
match rt.boxes.find? (fun b => b.id == id) with
| none => (rt, Except.error (notFoundErr id))
| some b =>
  if b.state = BoxState.Running then
    match beh with
    | CmdBehavior.cantLaunch =>
      (rt, Except.error ⟨BoxliteErrorCode.Execution, some "failed to launch command"⟩)
    | CmdBehavior.exits ec out =>
      ({ rt with cmdCount := rt.cmdCount + 1 }, Except.ok (ec, if cb then out else []))
  else (rt, Except.error ⟨BoxliteErrorCode.InvalidState, some "box is not running"⟩)

/-- Modelled from the spec: `boxlite_runtime_shutdown` (§4.2): stop every
Running box (the timeout only bounds the external isolation unit's
termination, so it does not appear in the state model), apply the
auto-remove sweep, and enter the irreversible terminated mode. -/
def boxlite_runtime_shutdown (rt : Runtime) (_timeout : Int) :
    Runtime × Except CBoxliteError Unit :=
({ rt with boxes := sweepAutoRemove (rt.boxes.map stopRecord), terminated := true },
  Except.ok ())

/-- Modelled from the spec: the Simple Convenience Facade state (§4.5),
absent from this tree: exactly one private Coordinator and exactly one
box, referenced by id. -/
structure CBoxliteSimple where
rt : Runtime
boxId : String
deriving Repr, DecidableEq

/-- Modelled from the spec: `boxlite_simple_new` (§4.5).  The image is an
optional string (`none` models a NULL pointer); `outBoxNull` records
whether the caller passed a NULL `out_box` output parameter.  NULL output
parameters and a null/empty image are rejected with InvalidArgument before
the private Coordinator is created (so the result does not depend on the
provisioning oracle `prov` in those cases). -/
def boxlite_simple_new (image : Option String) (cpus memoryMib : Nat)
    (outBoxNull : Bool) (prov : Bool) : Except CBoxliteError CBoxliteSimple :=
if outBoxNull then
  Except.error ⟨BoxliteErrorCode.InvalidArgument, some "out_box must not be null"⟩
else
  match image with
  | none =>
    Except.error ⟨BoxliteErrorCode.InvalidArgument, some "image must not be null or empty"⟩
  | some img =>
    if img = "" then
      Except.error ⟨BoxliteErrorCode.InvalidArgument, some "image must not be null or empty"⟩
    else
      let rt0 : Runtime := ⟨[], false, 0, 0⟩
      let opts : BoxOptions :=
        ⟨img, none, none, [], [], NetworkMode.Isolated, [], cpus, memoryMib, false⟩
      match boxlite_create_box rt0 opts prov with
      | (rt1, Except.ok r) => Except.ok ⟨rt1, r.id⟩
      | (_, Except.error e) => Except.error e

/-- Modelled from the spec: `boxlite_simple_run` (§4.5) always uses
buffered execution: accumulate all stdout and all stderr and return them
with the exit code. -/
def boxlite_simple_run (s : CBoxliteSimple) (beh : CmdBehavior) :
    CBoxliteSimple × Except CBoxliteError CBoxliteExecResult :=
match boxlite_execute s.rt s.boxId beh true with
| (rt', Except.ok (ec, out)) =>
  ({ s with rt := rt' },
    Except.ok ⟨ec,
      some (String.join ((out.filter (fun c => !c.isStderr)).map (fun c => c.text))),
      some (String.join ((out.filter (fun c => c.isStderr)).map (fun c => c.text)))⟩)
| (rt', Except.error e) => ({ s with rt := rt' }, Except.error e)

/-- A memory fault at the C boundary (dereferencing or freeing an invalid
pointer).  The release operations below return `Except Fault`, so safety
of a release call is `Except.ok`-ness of its result. -/
inductive Fault where
| fault
deriving Repr, DecidableEq

/-- Modelled from the spec: `boxlite_free_string` (§6 ownership contract),
absent from this tree.  A NULL pointer (`none`) is an explicit no-op; a
non-NULL string is deallocated.  Neither case faults. -/
def boxlite_free_string : Option String → Except Fault Unit
| none => Except.ok ()
| some _ => Except.ok ()

/-- Modelled from the spec: `boxlite_runtime_free` (§6 ownership
contract).  A NULL runtime handle (`none`) is an explicit no-op. -/
def boxlite_runtime_free : Option Runtime → Except Fault Unit
| none => Except.ok ()
| some _ => Except.ok ()

/-- Modelled from the spec: `boxlite_simple_free` (§6 ownership contract,
§4.5 disposal).  A NULL handle (`none`) is an explicit no-op. -/
def boxlite_simple_free : Option CBoxliteSimple → Except Fault Unit
| none => Except.ok ()
| some _ => Except.ok ()

/-- Modelled from the spec: `boxlite_result_free` (§6 ownership
contract).  A NULL result pointer (`none`) is an explicit no-op. -/
def boxlite_result_free : Option CBoxliteExecResult → Except Fault Unit
| none => Except.ok ()
| some _ => Except.ok ()

/-- Modelled from the spec: `boxlite_error_free` (§6 ownership contract:
releasing a record resets it to an empty/default state).  A NULL error
pointer (`none`) is an explicit no-op; a non-NULL record has its message
deallocated and is reset to `{ code = Ok, message = NULL }`.  The returned
value is the state of the pointed-to record after the call. -/
def boxlite_error_free : Option CBoxliteError → Except Fault (Option CBoxliteError)
| none => Except.ok none
| some _ => Except.ok (some ⟨BoxliteErrorCode.Ok, none⟩)

/-- One mutating call of the C API, with its external oracles; used to
state properties over every subsequent history of the runtime. -/
inductive Op where
| createB (opts : BoxOptions) (prov : Bool)
| startB (id : String) (prov : Bool)
| stopB (id : String)
| removeB (key : String) (force : Bool)
| execB (id : String) (beh : CmdBehavior) (cb : Bool)
| shutdownB (timeout : Int)
deriving Repr, DecidableEq

/-- State transition of one mutating call (the runtime component of the
call's result). -/
def applyOp (rt : Runtime) : Op → Runtime
| Op.createB opts prov => (boxlite_create_box rt opts prov).1
| Op.startB id prov => (boxlite_start_box rt id prov).1
| Op.stopB id => (boxlite_stop_box rt id).1
| Op.removeB key force => (boxlite_remove rt key force).1
| Op.execB id beh cb => (boxlite_execute rt id beh cb).1
| Op.shutdownB t => (boxlite_runtime_shutdown rt t).1

/-- Concrete create options used to instantiate the contract theorems
(the `alpine:3.19` configuration of the behavioural tests). -/
def optsEx : BoxOptions :=
⟨"alpine:3.19", none, none, [], [], NetworkMode.Isolated, [], 2, 512, false⟩

/-- A runtime holding one freshly created box. -/
def rtEx : Runtime := (boxlite_create_box ⟨[], false, 0, 0⟩ optsEx true).1

/-- The record of the box created in `rtEx`. -/
def rEx : BoxRecord :=
⟨idOfNat 0, none, BoxState.Running, "alpine:3.19", 2, 512, NetworkMode.Isolated, 0, some 0, false⟩

/-- `rtEx` after stopping its box. -/
def rtStopEx : Runtime := (boxlite_stop_box rtEx rEx.id).1

/-- The record of the box in `rtStopEx`. -/
def rStopEx : BoxRecord :=
⟨idOfNat 0, none, BoxState.Stopped, "alpine:3.19", 2, 512, NetworkMode.Isolated, 0, none, false⟩

/-! ### Helper lemmas about the registry table -/

/-- With pairwise-distinct ids, the exact-id scan finds exactly the member
carrying that id. -/
theorem find?_id_eq_of_mem (l : List BoxRecord) (r : BoxRecord)
    (hmem : r ∈ l) (hdist : l.Pairwise (fun a b => a.id ≠ b.id)) :
    l.find? (fun b => b.id == r.id) = some r := by
  induction l with
  | nil => cases hmem
  | cons a l ih =>
    rcases List.pairwise_cons.mp hdist with ⟨ha, hl⟩
    rcases List.mem_cons.mp hmem with h | h
    · subst h
      simp [List.find?]
    · have hne : a.id ≠ r.id := ha r h
      have : (a.id == r.id) = false := by
        exact beq_eq_false_iff_ne.mpr hne
      simp [List.find?, this]
      exact ih h hl

/-- The exact-id scan fails when no member carries the key. -/
theorem find?_id_eq_none (l : List BoxRecord) (key : String)
    (h : ∀ b ∈ l, b.id ≠ key) :
    l.find? (fun b => b.id == key) = none := by
  refine List.find?_eq_none.mpr (fun b hb => ?_)
  simpa using h b hb

/-- The exact-name scan fails when no member carries the key as a name. -/
theorem find?_name_eq_none (l : List BoxRecord) (key : String)
    (h : ∀ b ∈ l, b.name ≠ some key) :
    l.find? (fun b => b.name == some key) = none := by
  refine List.find?_eq_none.mpr (fun b hb => ?_)
  simpa using h b hb

/-- A scan of concatenated tables skips a first table that satisfies the
predicate nowhere. -/
theorem find?_append_of_none (l l' : List BoxRecord) (p : BoxRecord → Bool)
    (h : ∀ b ∈ l, p b = false) :
    (l ++ l').find? p = l'.find? p := by
  have h0 : l.find? p = none :=
    List.find?_eq_none.mpr (fun x hx => by simp [h x hx])
  rw [List.find?_append, h0, Option.none_or]

/-- With pairwise-distinct ids, a filter that accepts only records with
the id of the member `r` returns exactly `[r]`. -/
theorem filter_eq_single (l : List BoxRecord) (r : BoxRecord) (p : BoxRecord → Bool)
    (hmem : r ∈ l) (hdist : l.Pairwise (fun a b => a.id ≠ b.id))
    (hpr : p r = true) (hall : ∀ b ∈ l, p b = true → b.id = r.id) :
    l.filter p = [r] := by
  induction l with
  | nil => cases hmem
  | cons a l ih =>
    rcases List.pairwise_cons.mp hdist with ⟨ha, hl⟩
    by_cases hpa : p a = true
    · have haid : a.id = r.id := hall a (List.mem_cons_self a l) hpa
      have har : a = r := by
        rcases List.mem_cons.mp hmem with h | h
        · exact h.symm
        · exact absurd haid (ha r h)
      have htail : l.filter p = [] := by
        refine List.filter_eq_nil_iff.mpr (fun b hb => ?_)
        intro hpb
        have : b.id = r.id := hall b (List.mem_cons_of_mem a hb) hpb
        exact (ha b hb) (by rw [har, ← this])
      simp [List.filter_cons, hpa, htail, har, hpr]
    · have hpaf : p a = false := by
        cases hq : p a with
        | true => exact absurd hq hpa
        | false => rfl
      have hrl : r ∈ l := by
        rcases List.mem_cons.mp hmem with h | h
        · exact absurd (h ▸ hpr) (by simp [hpaf, h])
        · exact h
      simp [List.filter_cons, hpaf]
      exact ih hrl hl (fun b hb hpb => hall b (List.mem_cons_of_mem a hb) hpb)

/-- Resolution only ever returns a member of the table. -/
theorem resolveE_mem (l : List BoxRecord) (key : String) (b : BoxRecord)
    (h : resolveE l key = Except.ok b) : b ∈ l := by
  unfold resolveE at h
  cases h1 : l.find? (fun x => x.id == key) with
  | some r =>
    rw [h1] at h
    cases h
    exact List.mem_of_find?_eq_some h1
  | none =>
    rw [h1] at h
    cases h2 : l.find? (fun x => x.name == some key) with
    | some r =>
      rw [h2] at h
      cases h
      exact List.mem_of_find?_eq_some h2
    | none =>
      rw [h2] at h
      cases h3 : l.filter (fun x => key.data.isPrefixOf x.id.data) with
      | nil => rw [h3] at h; cases h
      | cons r rest =>
        cases rest with
        | nil =>
          rw [h3] at h
          cases h
          exact List.mem_of_mem_filter (by rw [h3]; exact List.mem_cons_self b [])
        | cons r' rest' => rw [h3] at h; cases h

/-- Equal-length character lists related by `isPrefixOf` are equal. -/
theorem eq_of_isPrefixOf_of_length (xs ys : List Char)
    (h : xs.isPrefixOf ys = true) (hlen : xs.length = ys.length) : xs = ys :=
  (List.isPrefixOf_iff_prefix.mp h).eq_of_length hlen

/-- A record processed by `stopRecord` is never Running. -/
theorem stopRecord_state_ne_running (b : BoxRecord) :
    (stopRecord b).state ≠ BoxState.Running := by
  unfold stopRecord
  by_cases h : b.state = BoxState.Running
  · simp [h]
  · simp [h]

/-- No single mutating call leaves the terminated mode. -/
theorem applyOp_preserves_terminated (rt : Runtime) (op : Op)
    (h : rt.terminated = true) : (applyOp rt op).terminated = true := by
  cases op with
  | createB opts prov => simp [applyOp, boxlite_create_box, h]
  | startB id prov => simp [applyOp, boxlite_start_box, h]
  | stopB id =>
    simp only [applyOp, boxlite_stop_box]
    cases hf : rt.boxes.find? (fun b => b.id == id) with
    | none => simpa using h
    | some b =>
      by_cases hb : b.state = BoxState.Running
      · simp [hf, hb, h]
      · simp [hf, hb, h]
  | removeB key force =>
    simp only [applyOp, boxlite_remove]
    cases hf : resolveE rt.boxes key with
    | error e => simpa using h
    | ok b =>
      by_cases hb : (b.state == BoxState.Running && !force) = true
      · simp [hf, hb, h]
      · simp [hf, hb, h]
  | execB id beh cb =>
    simp only [applyOp, boxlite_execute]
    cases hf : rt.boxes.find? (fun b => b.id == id) with
    | none => simpa using h
    | some b =>
      by_cases hb : b.state = BoxState.Running
      · cases beh with
        | cantLaunch => simp [hf, hb, h]
        | exits ec out => simp [hf, hb, h]
      · simp [hf, hb, h]
  | shutdownB t => simp [applyOp, boxlite_runtime_shutdown]

/-- No history of mutating calls leaves the terminated mode. -/
theorem foldl_applyOp_preserves_terminated (ops : List Op) (rt : Runtime)
    (h : rt.terminated = true) : (ops.foldl applyOp rt).terminated = true := by
  induction ops generalizing rt with
  | nil => exact h
  | cons op ops ih => exact ih (applyOp rt op) (applyOp_preserves_terminated rt op h)

/-! ### Claim theorems -/

/-- C1: every box successfully created by `boxlite_create_box` is in the
Running state immediately after creation (and no box in the table is ever
in the transient Created state), and `boxlite_get` on the new box's id
succeeds and returns the same record. -/
theorem create_box_auto_started_and_gettable
    (rt rt' : Runtime) (opts : BoxOptions) (prov : Bool) (r : BoxRecord)
    (h : boxlite_create_box rt opts prov = (rt', Except.ok r))
    (hfresh : ∀ b ∈ rt.boxes, b.id ≠ idOfNat rt.nextId)
    (hnc : ∀ b ∈ rt.boxes, b.state ≠ BoxState.Created) :
    r.state = BoxState.Running ∧
    (∀ b ∈ rt'.boxes, b.state ≠ BoxState.Created) ∧
    boxlite_get rt' r.id = Except.ok r := by
  by_cases ht : rt.terminated
  · simp [boxlite_create_box, ht] at h
  · by_cases hp : prov
    · simp only [boxlite_create_box, ht, hp, if_false, if_true, Bool.false_eq_true] at h
      injection h with hrt' hr
      injection hr with hrrec
      subst hrrec
      subst hrt'
      refine ⟨rfl, ?_, ?_⟩
      · intro b hb
        simp only [List.mem_append, List.mem_singleton] at hb
        rcases hb with hb | hb
        · exact hnc b hb
        · rw [hb]
          simp
      · show resolveE _ _ = _
        rw [show (Runtime.mk (rt.boxes ++ [_]) false (rt.nextId + 1) rt.cmdCount).boxes
          = rt.boxes ++ [_] from rfl]
        have hscan : (rt.boxes ++
            [(⟨idOfNat rt.nextId, opts.name, BoxState.Running, opts.image, opts.cpus,
              opts.memoryMib, opts.network, rt.nextId, some rt.nextId,
              opts.autoRemove⟩ : BoxRecord)]).find?
              (fun b => b.id == idOfNat rt.nextId) = some
              ⟨idOfNat rt.nextId, opts.name, BoxState.Running, opts.image, opts.cpus,
                opts.memoryMib, opts.network, rt.nextId, some rt.nextId, opts.autoRemove⟩ := by
          rw [find?_append_of_none rt.boxes _ _ (fun b hb => ?_)]
          · simp [List.find?]
          · exact beq_eq_false_iff_ne.mpr (hfresh b hb)
        simp [resolveE, hscan]
    · simp [boxlite_create_box, ht, hp] at h

/-- C1 witness: the concrete creation of `rtEx`'s box. -/
theorem create_box_auto_started_and_gettable_witness :
    rEx.state = BoxState.Running ∧ boxlite_get rtEx rEx.id = Except.ok rEx := by
  have h := create_box_auto_started_and_gettable ⟨[], false, 0, 0⟩ rtEx optsEx true rEx
    rfl (by simp) (by simp)
  exact ⟨h.1, h.2.2⟩

/-- C2: on a Running box, a command that launches and exits (with any
status, in particular non-zero) makes `boxlite_execute` return Ok with
that exit status, while a command that cannot be launched makes
`boxlite_execute` itself fail with an Execution-kind error. -/
theorem execute_exit_code_vs_launch_failure
    (rt : Runtime) (id : String) (b : BoxRecord)
    (hfind : rt.boxes.find? (fun x => x.id == id) = some b)
    (hrun : b.state = BoxState.Running) :
    (∀ (ec : Int) (out : List OutputChunk) (cb : Bool),
      (boxlite_execute rt id (CmdBehavior.exits ec out) cb).2 =
        Except.ok (ec, if cb then out else [])) ∧
    (∀ cb : Bool, ∃ e : CBoxliteError,
      (boxlite_execute rt id CmdBehavior.cantLaunch cb).2 = Except.error e ∧
      e.code = BoxliteErrorCode.Execution) := by
  constructor
  · intro ec out cb
    simp [boxlite_execute, hfind, hrun]
  · intro cb
    refine ⟨⟨BoxliteErrorCode.Execution, some "failed to launch command"⟩, ?_, rfl⟩
    simp [boxlite_execute, hfind, hrun]

/-- C2 witness: a non-zero exit and a launch failure on `rtEx`'s box. -/
theorem execute_exit_code_vs_launch_failure_witness :
    (boxlite_execute rtEx rEx.id (CmdBehavior.exits 1 []) false).2 = Except.ok (1, []) ∧
    ∃ e : CBoxliteError,
      (boxlite_execute rtEx rEx.id CmdBehavior.cantLaunch false).2 = Except.error e ∧
      e.code = BoxliteErrorCode.Execution := by
  have h := execute_exit_code_vs_launch_failure rtEx rEx.id rEx (by decide) rfl
  exact ⟨h.1 1 [] false, h.2 false⟩

/-- C6: stopping a box that is already Stopped succeeds and leaves the
runtime completely unchanged. -/
theorem stop_idempotent_on_stopped_box
    (rt : Runtime) (b : BoxRecord)
    (hfind : rt.boxes.find? (fun x => x.id == b.id) = some b)
    (hs : b.state = BoxState.Stopped) :
    boxlite_stop_box rt b.id = (rt, Except.ok ()) := by
  simp [boxlite_stop_box, hfind, hs]

/-- C6 witness: stopping the already-stopped box of `rtStopEx`. -/
theorem stop_idempotent_on_stopped_box_witness :
    boxlite_stop_box rtStopEx rStopEx.id = (rtStopEx, Except.ok ()) :=
  stop_idempotent_on_stopped_box rtStopEx rStopEx (by decide) rfl

/-- C3: once `boxlite_runtime_shutdown` has returned Ok, every box of the
runtime is in a non-Running state, and after any further history of
mutating calls the runtime is still terminated and `boxlite_create_box`
fails with a Stopped- or InvalidState-kind error. -/
theorem shutdown_terminates_runtime_permanently
    (rt : Runtime) (t : Int)
    (_h : (boxlite_runtime_shutdown rt t).2 = Except.ok ()) :
    (∀ b ∈ (boxlite_runtime_shutdown rt t).1.boxes, b.state ≠ BoxState.Running) ∧
    (∀ (ops : List Op) (opts : BoxOptions) (prov : Bool),
      (List.foldl applyOp (boxlite_runtime_shutdown rt t).1 ops).terminated = true ∧
      ∃ e : CBoxliteError,
        (boxlite_create_box (List.foldl applyOp (boxlite_runtime_shutdown rt t).1 ops)
            opts prov).2 = Except.error e ∧
        (e.code = BoxliteErrorCode.Stopped ∨ e.code = BoxliteErrorCode.InvalidState)) := by
  constructor
  · intro b hb
    have hb' : b ∈ (rt.boxes.map stopRecord) := by
      simpa [boxlite_runtime_shutdown, sweepAutoRemove] using List.mem_of_mem_filter hb
    rcases List.mem_map.mp hb' with ⟨x, _, hx⟩
    rw [← hx]
    exact stopRecord_state_ne_running x
  · intro ops opts prov
    have hterm : (List.foldl applyOp (boxlite_runtime_shutdown rt t).1 ops).terminated = true :=
      foldl_applyOp_preserves_terminated ops _ (by simp [boxlite_runtime_shutdown])
    refine ⟨hterm, ⟨BoxliteErrorCode.Stopped, some "runtime has been shut down"⟩, ?_, Or.inl rfl⟩
    simp [boxlite_create_box, hterm]

/-- C3 witness: shutting down `rtEx`, then one further stop call, leaves
the runtime terminated with no Running box. -/
theorem shutdown_terminates_runtime_permanently_witness :
    (∀ b ∈ (boxlite_runtime_shutdown rtEx 5).1.boxes, b.state ≠ BoxState.Running) ∧
    (List.foldl applyOp (boxlite_runtime_shutdown rtEx 5).1 [Op.stopB rEx.id]).terminated
      = true := by
  have h := shutdown_terminates_runtime_permanently rtEx 5 rfl
  exact ⟨h.1, (h.2 [Op.stopB rEx.id] optsEx true).1⟩

/-- C7: executing on a Running box with a streaming callback, a command
producing only stdout chunks invokes the callback at least once with the
stdout discriminator and never with the stderr discriminator; a command
writing to both streams invokes it at least once per discriminator; and
with no callback the output is discarded while execute still returns Ok
with the command's exit code. -/
theorem streaming_callback_discriminators
    (rt : Runtime) (id : String) (b : BoxRecord)
    (hfind : rt.boxes.find? (fun x => x.id == id) = some b)
    (hrun : b.state = BoxState.Running) :
    ∀ (ec : Int) (out : List OutputChunk),
    ((∀ c ∈ out, c.isStderr = false) → out ≠ [] →
      (boxlite_execute rt id (CmdBehavior.exits ec out) true).2 = Except.ok (ec, out) ∧
      0 < out.countP (fun c => !c.isStderr) ∧
      out.countP (fun c => c.isStderr) = 0) ∧
    ((∃ c ∈ out, c.isStderr = false) → (∃ c ∈ out, c.isStderr = true) →
      (boxlite_execute rt id (CmdBehavior.exits ec out) true).2 = Except.ok (ec, out) ∧
      0 < out.countP (fun c => !c.isStderr) ∧
      0 < out.countP (fun c => c.isStderr)) ∧
    (boxlite_execute rt id (CmdBehavior.exits ec out) false).2 = Except.ok (ec, []) := by
  intro ec out
  refine ⟨?_, ?_, ?_⟩
  · intro hall hne
    refine ⟨by simp [boxlite_execute, hfind, hrun], ?_, ?_⟩
    · rcases List.exists_mem_of_ne_nil out hne with ⟨c, hc⟩
      exact List.countP_pos_iff.mpr ⟨c, hc, by simp [hall c hc]⟩
    · exact List.countP_eq_zero.mpr (fun c hc => by simp [hall c hc])
  · intro hout herr
    refine ⟨by simp [boxlite_execute, hfind, hrun], ?_, ?_⟩
    · rcases hout with ⟨c, hc, hcs⟩
      exact List.countP_pos_iff.mpr ⟨c, hc, by simp [hcs]⟩
    · rcases herr with ⟨c, hc, hcs⟩
      exact List.countP_pos_iff.mpr ⟨c, hc, by simp [hcs]⟩
  · simp [boxlite_execute, hfind, hrun]

/-- C7 witness: a stdout-only command, a both-streams command, and a
callback-less run on `rtEx`'s box. -/
theorem streaming_callback_discriminators_witness :
    ((boxlite_execute rtEx rEx.id
        (CmdBehavior.exits 0 [⟨"hello\n", false⟩]) true).2 =
      Except.ok (0, [⟨"hello\n", false⟩]) ∧
      0 < ([(⟨"hello\n", false⟩ : OutputChunk)].countP (fun c => !c.isStderr)) ∧
      ([(⟨"hello\n", false⟩ : OutputChunk)].countP (fun c => c.isStderr)) = 0) ∧
    (0 < ([⟨"out\n", false⟩, ⟨"err\n", true⟩].countP
        (fun c : OutputChunk => !c.isStderr)) ∧
      0 < ([⟨"out\n", false⟩, ⟨"err\n", true⟩].countP
        (fun c : OutputChunk => c.isStderr))) ∧
    (boxlite_execute rtEx rEx.id
        (CmdBehavior.exits 0 [⟨"hello\n", false⟩]) false).2 = Except.ok (0, []) := by
  have h1 := streaming_callback_discriminators rtEx rEx.id rEx (by decide) rfl
    0 [⟨"hello\n", false⟩]
  have h2 := streaming_callback_discriminators rtEx rEx.id rEx (by decide) rfl
    0 [⟨"out\n", false⟩, ⟨"err\n", true⟩]
  refine ⟨h1.1 (by decide) (by decide), ?_, h1.2.2⟩
  have := h2.2.1 ⟨⟨"out\n", false⟩, by decide, rfl⟩ ⟨⟨"err\n", true⟩, by decide, rfl⟩
  exact ⟨this.2.1, this.2.2⟩

/-- C4: once `boxlite_remove` succeeds on a box (with pairwise-distinct,
equal-length ids as allocated by the registry, and no box named after the
removed id), `boxlite_get` and `boxlite_get_info` on that id fail with
NotFound, the id is absent from `boxlite_list_info`, and no lookup key
whatsoever can ever return the removed record again. -/
theorem removed_box_never_observable
    (rt : Runtime) (r : BoxRecord) (force : Bool)
    (hmem : r ∈ rt.boxes)
    (hdist : rt.boxes.Pairwise (fun a b => a.id ≠ b.id))
    (hname : ∀ b ∈ rt.boxes, b.name ≠ some r.id)
    (hlen : ∀ b ∈ rt.boxes, b.id.data.length = r.id.data.length)
    (hcan : r.state = BoxState.Stopped ∨ force = true) :
    (boxlite_remove rt r.id force).2 = Except.ok () ∧
    (∃ e : CBoxliteError,
      boxlite_get (boxlite_remove rt r.id force).1 r.id = Except.error e ∧
      e.code = BoxliteErrorCode.NotFound) ∧
    (∃ e : CBoxliteError,
      boxlite_get_info (boxlite_remove rt r.id force).1 r.id = Except.error e ∧
      e.code = BoxliteErrorCode.NotFound) ∧
    r.id ∉ (boxlite_list_info (boxlite_remove rt r.id force).1).map CBoxInfo.id ∧
    (∀ key : String, boxlite_get (boxlite_remove rt r.id force).1 key ≠ Except.ok r) := by
  have hres : resolveE rt.boxes r.id = Except.ok r := by
    simp [resolveE, find?_id_eq_of_mem rt.boxes r hmem hdist]
  have hcond : (r.state == BoxState.Running && !force) = false := by
    rcases hcan with hs | hf
    · simp [hs]
    · simp [hf]
  have hrm : boxlite_remove rt r.id force =
      ({ rt with boxes := rt.boxes.filter (fun x => !(x.id == r.id)) }, Except.ok ()) := by
    simp [boxlite_remove, hres, hcond]
  have hfmem : ∀ x ∈ rt.boxes.filter (fun x => !(x.id == r.id)), x.id ≠ r.id ∧ x ∈ rt.boxes := by
    intro x hx
    rcases List.mem_filter.mp hx with ⟨hx1, hx2⟩
    exact ⟨by simpa using hx2, hx1⟩
  have h1 : (rt.boxes.filter (fun x => !(x.id == r.id))).find? (fun b => b.id == r.id) = none :=
    find?_id_eq_none _ _ (fun b hb => (hfmem b hb).1)
  have h2 : (rt.boxes.filter (fun x => !(x.id == r.id))).find?
      (fun b => b.name == some r.id) = none :=
    find?_name_eq_none _ _ (fun b hb => hname b (hfmem b hb).2)
  have h3 : (rt.boxes.filter (fun x => !(x.id == r.id))).filter
      (fun b => r.id.data.isPrefixOf b.id.data) = [] := by
    refine List.filter_eq_nil_iff.mpr (fun b hb => ?_)
    intro hpfx
    have heq : r.id.data = b.id.data :=
      eq_of_isPrefixOf_of_length _ _ hpfx ((hlen b (hfmem b hb).2).symm)
    exact (hfmem b hb).1 (String.ext heq).symm
  have hget : boxlite_get (boxlite_remove rt r.id force).1 r.id =
      Except.error (notFoundErr r.id) := by
    rw [hrm]
    simp [boxlite_get, resolveE, h1, h2, h3]
  refine ⟨by rw [hrm], ⟨notFoundErr r.id, hget, rfl⟩, ?_, ?_, ?_⟩
  · refine ⟨notFoundErr r.id, ?_, rfl⟩
    rw [hrm] at hget ⊢
    simp only [boxlite_get] at hget
    simp [boxlite_get_info, hget, Except.map]
  · rw [hrm]
    intro hmem'
    simp only [boxlite_list_info, List.map_map, List.mem_map] at hmem'
    rcases hmem' with ⟨x, hx, hxid⟩
    exact (hfmem x hx).1 hxid
  · intro key hk
    rw [hrm] at hk
    have : r ∈ rt.boxes.filter (fun x => !(x.id == r.id)) := resolveE_mem _ _ _ hk
    exact ((hfmem r this).1) rfl

/-- C4 witness: force-removing the running box of `rtEx`, then looking it
up again. -/
theorem removed_box_never_observable_witness :
    (boxlite_remove rtEx rEx.id true).2 = Except.ok () ∧
    (∃ e : CBoxliteError,
      boxlite_get (boxlite_remove rtEx rEx.id true).1 rEx.id = Except.error e ∧
      e.code = BoxliteErrorCode.NotFound) := by
  have h := removed_box_never_observable rtEx rEx true (by decide) (by decide) (by decide)
    (by decide) (Or.inr rfl)
  exact ⟨h.1, h.2.1⟩

/-- C5: if the 8-character prefix of an existing box's id is not a prefix
of any other box's id (nor accidentally some box's name), then
`boxlite_get` with that prefix resolves — through the exact-id, exact-name,
unique-id-prefix order — to exactly the record that `boxlite_get` with the
full id returns. -/
theorem unique_prefix_resolves_to_same_record
    (rt : Runtime) (r : BoxRecord)
    (hmem : r ∈ rt.boxes)
    (hdist : rt.boxes.Pairwise (fun a b => a.id ≠ b.id))
    (hlen8 : 8 < r.id.data.length)
    (hname : ∀ b ∈ rt.boxes, b.name ≠ some (String.mk (r.id.data.take 8)))
    (huniq : ∀ b ∈ rt.boxes, b ≠ r → (r.id.data.take 8).isPrefixOf b.id.data = false) :
    boxlite_get rt (String.mk (r.id.data.take 8)) = Except.ok r ∧
    boxlite_get rt r.id = Except.ok r := by
  have hpr : (r.id.data.take 8).isPrefixOf r.id.data = true :=
    List.isPrefixOf_iff_prefix.mpr (List.take_prefix 8 r.id.data)
  have h1 : rt.boxes.find? (fun b => b.id == String.mk (r.id.data.take 8)) = none := by
    refine find?_id_eq_none _ _ (fun b hb heq => ?_)
    by_cases hbr : b = r
    · subst hbr
      have hlen : b.id.data.length = (b.id.data.take 8).length :=
        congrArg (fun s => s.data.length) heq
      rw [List.length_take] at hlen
      omega
    · have htrue : (r.id.data.take 8).isPrefixOf b.id.data = true := by
        rw [heq]
        exact List.isPrefixOf_iff_prefix.mpr (List.prefix_refl _)
      rw [huniq b hb hbr] at htrue
      cases htrue
  have h2 : rt.boxes.find? (fun b => b.name == some (String.mk (r.id.data.take 8))) = none :=
    find?_name_eq_none _ _ hname
  have h3 : rt.boxes.filter (fun b => (r.id.data.take 8).isPrefixOf b.id.data) = [r] := by
    refine filter_eq_single rt.boxes r _ hmem hdist hpr (fun b hb hpb => ?_)
    by_cases hbr : b = r
    · rw [hbr]
    · rw [huniq b hb hbr] at hpb
      cases hpb
  constructor
  · simp [boxlite_get, resolveE, h1, h2, h3]
  · simp [boxlite_get, resolveE, find?_id_eq_of_mem rt.boxes r hmem hdist]

/-- C5 witness: the 8-character prefix of the single box of `rtEx`. -/
theorem unique_prefix_resolves_to_same_record_witness :
    boxlite_get rtEx (String.mk (rEx.id.data.take 8)) = Except.ok rEx ∧
    boxlite_get rtEx rEx.id = Except.ok rEx :=
  unique_prefix_resolves_to_same_record rtEx rEx (by decide) (by decide) (by decide)
    (by decide) (by decide)

/-- C8: every release operation is a safe no-op on a NULL handle (none of
the five frees faults), and releasing a `CBoxliteError` that carries a
message resets the record to its empty/default state
(`code = Ok`, `message = NULL`). -/
theorem release_operations_null_safe_and_reset :
    boxlite_free_string none = Except.ok () ∧
    boxlite_runtime_free none = Except.ok () ∧
    boxlite_simple_free none = Except.ok () ∧
    boxlite_result_free none = Except.ok () ∧
    boxlite_error_free none = Except.ok none ∧
    (∀ (code : BoxliteErrorCode) (msg : String),
      boxlite_error_free (some ⟨code, some msg⟩) =
        Except.ok (some ⟨BoxliteErrorCode.Ok, none⟩)) :=
  ⟨rfl, rfl, rfl, rfl, rfl, fun _ _ => rfl⟩

/-- C9: `boxlite_simple_new` with a NULL or empty image fails with an
InvalidArgument-kind error carrying a non-NULL message, whatever the
resources requested and whatever the provisioning oracle would have done
(the Coordinator is never consulted). -/
theorem simple_new_rejects_null_or_empty_image :
    ∀ (cpus memoryMib : Nat) (prov : Bool),
      (∃ m : String, boxlite_simple_new none cpus memoryMib false prov =
        Except.error ⟨BoxliteErrorCode.InvalidArgument, some m⟩) ∧
      (∃ m : String, boxlite_simple_new (some "") cpus memoryMib false prov =
        Except.error ⟨BoxliteErrorCode.InvalidArgument, some m⟩) :=
  fun _ _ _ => ⟨⟨"image must not be null or empty", rfl⟩,
    ⟨"image must not be null or empty", rfl⟩⟩

/-- C10: `boxlite_simple_new` with a NULL `out_box` output parameter fails
with an InvalidArgument-kind error carrying a non-NULL message for every
image argument (valid ones included) instead of dereferencing the NULL
pointer. -/
theorem simple_new_rejects_null_output_param :
    ∀ (image : Option String) (cpus memoryMib : Nat) (prov : Bool),
      ∃ m : String, boxlite_simple_new image cpus memoryMib true prov =
        Except.error ⟨BoxliteErrorCode.InvalidArgument, some m⟩ :=
  fun _ _ _ _ => ⟨"out_box must not be null", rfl⟩

end Boxlite
